import Mathlib

/-!
Shallow embedding of the FastCanvas frame builder
(src/Android/jni/Canvas.cpp and src/Android/jni/Canvas.h).

Modelling conventions:
* C float/double arithmetic is modelled over the rationals; every concrete
  value appearing in the claims is exactly representable, and the spec
  describes real-number semantics.  The floor function of math.h rounds
  toward negative infinity, which is Int.floor on the rationals.
* The external math library functions cos and sin (used only by the rotate
  opcode) and the external GL readback / lodepng encoder (used only by the
  capture path) are collaborators outside this repository; they are
  abstracted into an ExtOps record and every theorem quantifies over it.
* USE_INDEX_BUFFER is defined in Canvas.h, so the embedding follows the
  USE_INDEX_BUFFER branches of the source throughout.
* The command stream is embedded at the opcode level: each instruction of
  the mini-language (one dispatch letter plus numeric arguments, Canvas.cpp
  BuildStreams) is one constructor of Cmd.  The numeric-text scanner
  (atof/atoi) is external libc functionality.
* DynArray (Canvas.h) is modelled for the capture queue with its full
  backing store plus a logical size, because Canvas::Render reads the queue
  at indices that can exceed the logical size; entries shifted by RemoveAt
  leave stale duplicates behind exactly as memmove does.  The other arrays
  are only ever accessed in bounds and are modelled as plain lists.
* ASSERT is a no-op in release builds (and only logs on Android debug
  builds); the model gives the unchecked semantics.
-/

/-- Color with unsigned byte components, from struct Color in Canvas.h. -/
structure ColorB where
  r : ℕ
  g : ℕ
  b : ℕ
  a : ℕ
deriving DecidableEq

/-- Color.SetWhite from Canvas.h: all four components 0xff. -/
def whiteColor : ColorB := ⟨255, 255, 255, 255⟩

/-- Color.isWhite from Canvas.h: true when all four components are 0xff. -/
def ColorB.isWhite (c : ColorB) : Bool :=
  c.r == 255 && c.g == 255 && c.b == 255 && c.a == 255

/-- Affine transform (a,b,c,d,tx,ty), struct Transform in Canvas.h,
modelled over the rationals. -/
structure TransformQ where
  a : ℚ
  b : ℚ
  c : ℚ
  d : ℚ
  tx : ℚ
  ty : ℚ
deriving DecidableEq

/-- Default Transform constructor in Canvas.h: the identity (1,0,0,1,0,0). -/
def identityT : TransformQ := ⟨1, 0, 0, 1, 0, 0⟩

/-- Source clip plus destination rectangle plus texture id,
struct Clip in Canvas.h. -/
structure ClipQ where
  cx : ℚ
  cy : ℚ
  cw : ℚ
  ch : ℚ
  px : ℚ
  py : ℚ
  pw : ℚ
  ph : ℚ
  textureID : ℤ
deriving DecidableEq

/-- Texture registry entry, class Texture in Canvas.h. -/
structure Texture where
  textureID : ℤ
  glID : ℤ
  width : ℤ
  height : ℤ
deriving DecidableEq

/-- Vertex with position, texture coordinate and color,
struct Vertex2 in Canvas.h. -/
structure Vertex2Q where
  pos : ℚ × ℚ
  tex : ℚ × ℚ
  color : ColorB
deriving DecidableEq

/-- Capture request, struct CaptureParams in Canvas.h.  The two char
array fields hold the callback id and the output file name; the model
uses unbounded strings (the 511-byte strncpy truncation is not touched
by any claim). -/
structure CaptureParams where
  x : ℤ
  y : ℤ
  width : ℤ
  height : ℤ
  callbackID : String
  fileName : String
deriving DecidableEq

/-- Completion notification, struct Callback in Canvas.h. -/
structure Callback where
  callbackID : String
  result : String
  isError : Bool
deriving DecidableEq

/-- External collaborators of the frame builder: the math library
trigonometric functions used by the rotate opcode, and the outcome of the
GL readback plus lodepng encode for one capture request (capErr is true
when allocation or encoding fails, and errText is the lodepng error text
that Canvas::CaptureGLLayer copies over the file name on failure). -/
structure ExtOps where
  cosq : ℚ → ℚ
  sinq : ℚ → ℚ
  capErr : CaptureParams → Bool
  errText : CaptureParams → String

/-- Dummy instantiation of the external collaborators, used to evaluate the
model on concrete inputs whose outcome does not depend on them. -/
def ops0 : ExtOps := ⟨fun _ => 0, fun _ => 0, fun _ => false, fun _ => ""⟩

/-- Floor toward negative infinity applied by DoPushQuad to each vertex
coordinate (math.h floor). -/
def ratFloor (q : ℚ) : ℚ := ((⌊q⌋ : ℤ) : ℚ)

/-- Truncation toward zero, the C cast from a floating value to int. -/
def truncQ (q : ℚ) : ℤ := if q < 0 then ⌈q⌉ else ⌊q⌋

/-- Conversion of a global alpha argument to the stored byte, from the
handler of opcode a in Canvas::BuildStreams:
worldColor.a = (int)(255.0*alpha+0.5f), assigned to an unsigned char
(reduction modulo 256). -/
def alphaToByte (alpha : ℚ) : ℕ := ((truncQ (255 * alpha + 1/2)) % 256).toNat

/-- One instruction of the render mini-language, one constructor per
dispatch letter of Canvas::BuildStreams.  unknown stands for any other
leading character, which is skipped to the next semicolon. -/
inductive Cmd where
  | setT (a b c d tx ty : ℚ)
  | composeT (a b c d tx ty : ℚ)
  | resetT
  | scale (sx sy : ℚ)
  | rotate (angle : ℚ)
  | translate (dx dy : ℚ)
  | save
  | restore
  | globalAlpha (alpha : ℚ)
  | draw (textureID : ℤ) (cx cy cw ch px py pw ph : ℚ)
  | unknown
deriving DecidableEq

/-- Matrix built by the switch in Canvas::ParseSetTransform from the parse
mode and the numeric arguments; the local Transform t starts out as the
identity and only the fields assigned by the mode are overwritten. -/
def parseModeT (ops : ExtOps) : Cmd → TransformQ
  | .setT a b c d tx ty => ⟨a, b, c, d, tx, ty⟩
  | .composeT a b c d tx ty => ⟨a, b, c, d, tx, ty⟩
  | .resetT => identityT
  | .scale sx sy => ⟨sx, 0, 0, sy, 0, 0⟩
  | .rotate angle =>
      ⟨ops.cosq angle, ops.sinq angle, -(ops.sinq angle), ops.cosq angle, 0, 0⟩
  | .translate dx dy => ⟨1, 0, 0, 1, dx, dy⟩
  | _ => identityT

/-- Concatenation branch of Canvas::ParseSetTransform: right-multiply the
parsed matrix t onto the incoming transform. -/
def concatT (cur t : TransformQ) : TransformQ :=
  ⟨cur.a * t.a + cur.b * t.c,
   cur.a * t.b + cur.b * t.d,
   cur.c * t.a + cur.d * t.c,
   cur.c * t.b + cur.d * t.d,
   cur.a * t.tx + cur.b * t.ty + cur.tx,
   cur.c * t.tx + cur.d * t.ty + cur.ty⟩

/-- Tail of Canvas::ParseSetTransform: concatenate when the concat flag is
set, otherwise replace the current transform with the parsed matrix. -/
def applySetTransform (ops : ExtOps) (concat : Bool) (cur : TransformQ)
    (c : Cmd) : TransformQ :=
  if concat then concatT cur (parseModeT ops c) else parseModeT ops c

/-- Capture queue, DynArray of CaptureParams pointers (m_capParams in
Canvas.h).  backing is the allocated storage, of which the first size
entries are the live ones; slots past size can hold stale values left
behind by DynArray::RemoveAt, and Canvas::Render does read them. -/
structure CapQueue where
  backing : List CaptureParams
  size : ℕ
deriving DecidableEq

/-- Placeholder value for out-of-storage reads (never reached by the
executions modelled here, since the drain loop performs exactly size
iterations with increasing indices below size). -/
def defaultCap : CaptureParams := ⟨0, 0, 0, 0, "", ""⟩

/-- DynArray::RemoveAt from Canvas.h: when index < size - 1, memmove shifts
the entries above index down one slot, leaving a stale duplicate of the
last live entry at slot size - 1; then the logical size shrinks by one.
The allocation itself never shrinks. -/
def dynRemoveAt (q : CapQueue) (index : ℕ) : CapQueue :=
  if index + 1 < q.size then
    { backing := q.backing.take index
        ++ (q.backing.drop (index + 1)).take (q.size - 1 - index)
        ++ q.backing.drop (q.size - 1),
      size := q.size - 1 }
  else
    { q with size := q.size - 1 }

/-- DynArray::Append of a single entry: the new entry is written at slot
size (overwriting a stale slot when one exists there) and the logical size
grows by one. -/
def dynAppend (q : CapQueue) (p : CaptureParams) : CapQueue :=
  { backing := q.backing.take q.size ++ [p] ++ q.backing.drop (q.size + 1),
    size := q.size + 1 }

/-- Capture queue produced by Canvas::QueueCaptureGLLayer appends into a
fresh array: the backing holds exactly the queued requests. -/
def queueOfList (ps : List CaptureParams) : CapQueue := ⟨ps, ps.length⟩

/-- Canvas::AddCallback: a Callback is appended to the callback queue only
when the callback id pointer is non-NULL (none models NULL) and the string
is non-empty. -/
def addCallback (cbs : List Callback) (cbID : Option String) (res : String)
    (isErr : Bool) : List Callback :=
  match cbID with
  | none => cbs
  | some s => if s = "" then cbs else cbs ++ [⟨s, res, isErr⟩]

/-- Outcome of one Canvas::CaptureGLLayer call for the drain loop: the
returned error flag, and the file-name string subsequently passed to
AddCallback (on failure CaptureGLLayer overwrites the file name with the
lodepng error text before returning). -/
def captureOutcome (ops : ExtOps) (p : CaptureParams) : Bool × String :=
  if ops.capErr p then (true, ops.errText p) else (false, p.fileName)

/-- Capture drain loop at the end of Canvas::Render, fuel-indexed:
while the queue is non-empty, capture the entry at index i, append its
callback, then RemoveAt(i) and increment i.  Since RemoveAt always
decrements the logical size by exactly one, the loop performs exactly
size iterations, so a fuel equal to the initial size is exact.
Returns the processed requests in order, the callback queue, and the
final capture queue. -/
def captureLoopFuel (ops : ExtOps) :
    ℕ → CapQueue → ℕ → List Callback →
    List CaptureParams × List Callback × CapQueue
  | 0, q, _, cbs => ([], cbs, q)
  | fuel + 1, q, i, cbs =>
    if q.size = 0 then ([], cbs, q)
    else
      let p := q.backing.getD i defaultCap
      let out := captureOutcome ops p
      let cbs2 := addCallback cbs (some p.callbackID) out.2 out.1
      let rest := captureLoopFuel ops fuel (dynRemoveAt q i) (i + 1) cbs2
      (p :: rest.1, rest.2.1, rest.2.2)

/-- Capture drain loop of Canvas::Render started at index 0 with the exact
fuel (see captureLoopFuel). -/
def captureDrain (ops : ExtOps) (q : CapQueue) (cbs : List Callback) :
    List CaptureParams × List Callback × CapQueue :=
  captureLoopFuel ops q.size q 0 cbs

/-- Readback rectangle produced by the bounds checks at the top of
Canvas::CaptureGLLayer, before the y-axis flip and the glReadPixels
call. -/
structure CapRect where
  x : ℤ
  y : ℤ
  w : ℤ
  h : ℤ
deriving DecidableEq

/-- Bounds-check portion of Canvas::CaptureGLLayer: negative x or y are
reset to 0; a width or height equal to -1 exactly is replaced by the
viewport extent; then an axis whose origin plus extent exceeds the
viewport is reset to origin 0 and the full viewport extent. -/
def clampCapture (vpW vpH : ℤ) (p : CaptureParams) : CapRect :=
  let x := if p.x < 0 then 0 else p.x
  let y := if p.y < 0 then 0 else p.y
  let w := if p.width = -1 then vpW else p.width
  let h := if p.height = -1 then vpH else p.height
  let xw := if x + w > vpW then ((0 : ℤ), vpW) else (x, w)
  let yh := if y + h > vpH then ((0 : ℤ), vpH) else (y, h)
  ⟨xw.1, yh.1, xw.2, yh.2⟩

/-- Static offset table of Canvas::EnsureIndex: the six indices of one
quad, two triangles. -/
def indexOffset : ℕ → ℕ
  | 0 => 0
  | 1 => 1
  | 2 => 2
  | 3 => 0
  | 4 => 3
  | _ => 2

/-- Index fill loop of Canvas::EnsureIndex: emits indexOffset c + base,
with c cycling through 0..5 and base advancing by 4 after each group of
six. -/
def buildIndices : ℕ → ℕ → ℕ → List ℕ
  | 0, _, _ => []
  | nLeft + 1, c, base =>
    (indexOffset c + base) ::
      (if c + 1 = 6 then buildIndices nLeft 0 (base + 4)
       else buildIndices nLeft (c + 1) base)

/-- Canvas::EnsureIndex: the shared index array is rebuilt (grown) only
when the requested index count exceeds its current size. -/
def ensureIndex (cur : List ℕ) (nIndex : ℕ) : List ℕ :=
  if cur.length < nIndex then buildIndices nIndex 0 0 else cur

/-- Per-texture batch, class Stream in Canvas.h (renamed because Lean
already has a root declaration called Stream).  vboData models the
contents of the GPU vertex buffer, nVBOAllocated its grow-only capacity,
nVertex the live vertex count. -/
structure StreamS where
  texture : Option Texture
  vboData : List Vertex2Q
  nVBOAllocated : ℕ
  nVertex : ℕ
  usesColor : Bool
deriving DecidableEq

/-- Stream constructor in Canvas.h. -/
def mkStream (img : Texture) : StreamS := ⟨some img, [], 0, 0, false⟩

/-- Placeholder for out-of-bounds stream reads (never reached: every
stream access in the modelled code is guarded in bounds). -/
def defaultStream : StreamS := ⟨none, [], 0, 0, false⟩

/-- Stream::Reset from Canvas.h: drop the texture reference and the color
flag; the GPU buffer, its capacity and nVertex are kept. -/
def streamReset (st : StreamS) : StreamS :=
  { st with texture := none, usesColor := false }

/-- Stream::VBOUpload from Canvas.cpp: a full reallocation and upload when
the scratch buffer exceeds the allocated capacity, otherwise a partial
update of the first nVertex entries that leaves the tail of the
allocation intact. -/
def vboUpload (st : StreamS) (buf : List Vertex2Q) : StreamS :=
  if st.nVBOAllocated < buf.length then
    { st with nVBOAllocated := buf.length, nVertex := buf.length,
              vboData := buf }
  else
    { st with nVertex := buf.length,
              vboData := buf ++ st.vboData.drop buf.length }

/-- Texture dimensions read by DoPushQuad through the stream texture
pointer. -/
def streamTexWidth (st : StreamS) : ℤ :=
  match st.texture with
  | some t => t.width
  | none => 0

/-- Texture height counterpart of streamTexWidth. -/
def streamTexHeight (st : StreamS) : ℤ :=
  match st.texture with
  | some t => t.height
  | none => 0

/-- Texture lookup loop of the draw handler in Canvas::BuildStreams:
first registry entry whose id matches, none when the id is
unregistered. -/
def findTexture : List Texture → ℤ → Option Texture
  | [], _ => none
  | t :: ts, id => if t.textureID = id then some t else findTexture ts id

/-- Four vertices built by Canvas::DoPushQuad from the active transform,
the world color, the texture dimensions and the clip: positions are the
transformed destination corners with each coordinate floored, texture
coordinates are the clip rectangle corners divided by the texture
dimensions, and all four vertices carry the world color. -/
def quadVerts (t : TransformQ) (wc : ColorB) (w h : ℚ) (c : ClipQ) :
    List Vertex2Q :=
  [⟨(ratFloor (t.a * c.px + t.c * c.py + t.tx),
     ratFloor (t.b * c.px + t.d * c.py + t.ty)),
    (c.cx / w, c.cy / h), wc⟩,
   ⟨(ratFloor (t.a * (c.px + c.pw) + t.c * c.py + t.tx),
     ratFloor (t.b * (c.px + c.pw) + t.d * c.py + t.ty)),
    ((c.cx + c.cw) / w, c.cy / h), wc⟩,
   ⟨(ratFloor (t.a * (c.px + c.pw) + t.c * (c.py + c.ph) + t.tx),
     ratFloor (t.b * (c.px + c.pw) + t.d * (c.py + c.ph) + t.ty)),
    ((c.cx + c.cw) / w, (c.cy + c.ch) / h), wc⟩,
   ⟨(ratFloor (t.a * c.px + t.c * (c.py + c.ph) + t.tx),
     ratFloor (t.b * c.px + t.d * (c.py + c.ph) + t.ty)),
    (c.cx / w, (c.cy + c.ch) / h), wc⟩]

/-- Mutable state local to one Canvas::BuildStreams run, together with the
canvas members it updates: the transform machine, the world color, the
scratch vertex buffer, the stream list, and the active stream index n
(an int, -1 when no stream is active yet). -/
structure FrameState where
  transform : TransformQ
  transformStack : List TransformQ
  worldColor : ColorB
  vertexBuffer : List Vertex2Q
  streams : List StreamS
  n : ℤ
deriving DecidableEq

/-- Canvas::DoPushQuad acting on the frame state: append the four quad
vertices to the scratch buffer and raise the usesColor flag of the active
stream when the world color is not opaque white. -/
def pushQuadInto (s : FrameState) (idx : ℕ) (clip : ClipQ) : FrameState :=
  let st := s.streams.getD idx defaultStream
  let verts := quadVerts s.transform s.worldColor
      ((streamTexWidth st : ℤ) : ℚ) ((streamTexHeight st : ℤ) : ℚ) clip
  let st2 := if !s.worldColor.isWhite then
      { st with usesColor := true } else st
  { s with streams := s.streams.set idx st2,
           vertexBuffer := s.vertexBuffer ++ verts }

/-- Draw handler of Canvas::BuildStreams: resolve the texture id (an
unresolved id drops the command with no state change); keep appending to
the active stream while its texture matches; otherwise flush the active
stream, advance n, reuse the stream slot at the new position or append a
fresh stream, clear the scratch buffer, and push the quad. -/
def stepDraw (textures : List Texture) (s : FrameState) (clip : ClipQ) :
    FrameState :=
  match findTexture textures clip.textureID with
  | none => s
  | some img =>
    if 0 ≤ s.n ∧ s.n.toNat < s.streams.length ∧
        (s.streams.getD s.n.toNat defaultStream).texture = some img then
      pushQuadInto s s.n.toNat clip
    else
      let s1 := if 0 ≤ s.n ∧ s.n.toNat < s.streams.length then
          { s with streams := (s.streams.set s.n.toNat
              (vboUpload (s.streams.getD s.n.toNat defaultStream)
                s.vertexBuffer)) }
        else s
      let n2 := s.n + 1
      let s2 :=
        if n2.toNat = s1.streams.length then
          { s1 with streams := s1.streams ++ [mkStream img] }
        else
          { s1 with streams := (s1.streams.set n2.toNat
              { s1.streams.getD n2.toNat defaultStream with
                  texture := some img }) }
      pushQuadInto { s2 with n := n2, vertexBuffer := [] } n2.toNat clip

/-- One step of the command dispatch loop in Canvas::BuildStreams, one
case per opcode letter with the parse mode and concat flag of the
corresponding ParseSetTransform call. -/
def stepCmd (ops : ExtOps) (textures : List Texture) (s : FrameState)
    (c : Cmd) : FrameState :=
  match c with
  | .setT .. =>
      { s with transform := applySetTransform ops false s.transform c }
  | .composeT .. =>
      { s with transform := applySetTransform ops true s.transform c }
  | .resetT =>
      { s with transform := applySetTransform ops false s.transform c }
  | .scale .. =>
      { s with transform := applySetTransform ops true s.transform c }
  | .rotate .. =>
      { s with transform := applySetTransform ops true s.transform c }
  | .translate .. =>
      { s with transform := applySetTransform ops true s.transform c }
  | .save => { s with transformStack := s.transformStack ++ [s.transform] }
  | .restore =>
      if s.transformStack.length > 0 then
        { s with transform := s.transformStack.getLastD identityT,
                 transformStack := s.transformStack.dropLast }
      else s
  | .globalAlpha alpha =>
      { s with worldColor := { s.worldColor with a := alphaToByte alpha } }
  | .draw tid cx cy cw ch px py pw ph =>
      stepDraw textures s ⟨cx, cy, cw, ch, px, py, pw, ph, tid⟩
  | .unknown => s

/-- Final flush of Canvas::BuildStreams: upload the scratch buffer to the
active stream when one exists. -/
def finalFlush (s : FrameState) : FrameState :=
  if 0 ≤ s.n then
    { s with streams := (s.streams.set s.n.toNat
        (vboUpload (s.streams.getD s.n.toNat defaultStream)
          s.vertexBuffer)) }
  else s

/-- Full canvas state touched by the modelled entry points: the fields of
class Canvas in Canvas.h that the frame builder reads or writes
(DEBUG-only statistics, the GL background color and ortho settings, and
the DEBUG text stream are outside every claim and omitted). -/
structure CanvasState where
  contextLost : Bool
  worldColor : ColorB
  transform : TransformQ
  transformStack : List TransformQ
  vertexBuffer : List Vertex2Q
  streams : List StreamS
  textures : List Texture
  capParams : CapQueue
  callbacks : List Callback
  indices : List ℕ
deriving DecidableEq

/-- Canvas::BuildStreams: reset every stream, clear the scratch buffer,
run the command dispatch loop from the persisted transform, stack and
world color with no active stream, then flush the last active stream. -/
def buildStreams (ops : ExtOps) (s : CanvasState) (cmds : List Cmd) :
    CanvasState :=
  let fs0 : FrameState :=
    { transform := s.transform, transformStack := s.transformStack,
      worldColor := s.worldColor, vertexBuffer := [],
      streams := s.streams.map streamReset, n := -1 }
  let fs2 := finalFlush (cmds.foldl (stepCmd ops s.textures) fs0)
  { s with transform := fs2.transform,
           transformStack := fs2.transformStack,
           worldColor := fs2.worldColor,
           vertexBuffer := fs2.vertexBuffer,
           streams := fs2.streams }

/-- Canvas::Render: bail out when the context is lost; reset the world
color to opaque white; interpret the command text when it is non-empty;
grow the shared index buffer to cover every stream; submit the draws
(pure GL, no canvas state change); then drain the capture queue,
appending the resulting callbacks.  Also returns the list of capture
requests processed (readback plus encode), in processing order. -/
def render (ops : ExtOps) (s : CanvasState) (cmds : List Cmd) :
    CanvasState × List CaptureParams :=
  if s.contextLost then (s, [])
  else
    let s1 := { s with worldColor := whiteColor }
    let s2 := if cmds.isEmpty then s1 else buildStreams ops s1 cmds
    let s3 := { s2 with indices := (s2.streams.foldl
        (fun ind (st : StreamS) => ensureIndex ind (st.nVertex * 6 / 4))
        s2.indices) }
    let dr := captureDrain ops s3.capParams s3.callbacks
    ({ s3 with capParams := dr.2.2, callbacks := dr.2.1 }, dr.1)

/-- Pure transform machine over the command stream: the transform and
save-stack components of stepCmd in isolation.  Used to state that the
transform state threads through whole render calls untouched by anything
else. -/
def xformStep (ops : ExtOps) (ts : TransformQ × List TransformQ) (c : Cmd) :
    TransformQ × List TransformQ :=
  match c with
  | .setT .. => (applySetTransform ops false ts.1 c, ts.2)
  | .composeT .. => (applySetTransform ops true ts.1 c, ts.2)
  | .resetT => (applySetTransform ops false ts.1 c, ts.2)
  | .scale .. => (applySetTransform ops true ts.1 c, ts.2)
  | .rotate .. => (applySetTransform ops true ts.1 c, ts.2)
  | .translate .. => (applySetTransform ops true ts.1 c, ts.2)
  | .save => (ts.1, ts.2 ++ [ts.1])
  | .restore =>
      if ts.2.length > 0 then (ts.2.getLastD identityT, ts.2.dropLast)
      else ts
  | _ => ts

/-- Composition law exactly as worded by the spec (section 4.1), to be
compared against the transform opcodes of the interpreter. -/
def specCompose (cur t : TransformQ) : TransformQ :=
  ⟨cur.a * t.a + cur.b * t.c,
   cur.a * t.b + cur.b * t.d,
   cur.c * t.a + cur.d * t.c,
   cur.c * t.b + cur.d * t.d,
   cur.a * t.tx + cur.b * t.ty + cur.tx,
   cur.c * t.tx + cur.d * t.ty + cur.ty⟩

/-- Affine application of a transform to a point as worded by the spec
(section 4.3), to be compared against the quad generator. -/
def applyTransform (t : TransformQ) (p : ℚ × ℚ) : ℚ × ℚ :=
  (t.a * p.1 + t.c * p.2 + t.tx, t.b * p.1 + t.d * p.2 + t.ty)

/-- Componentwise floor of a point, the floor-snapping of the spec. -/
def floorPoint (p : ℚ × ℚ) : ℚ × ℚ := (ratFloor p.1, ratFloor p.2)

/-- Destination-rectangle corners in the order TL, TR, BR, BL (spec
section 4.3, with y growing downward). -/
def destCorners (c : ClipQ) : List (ℚ × ℚ) :=
  [(c.px, c.py), (c.px + c.pw, c.py),
   (c.px + c.pw, c.py + c.ph), (c.px, c.py + c.ph)]

/-- Clip-rectangle corners matching destCorners in order. -/
def clipCorners (c : ClipQ) : List (ℚ × ℚ) :=
  [(c.cx, c.cy), (c.cx + c.cw, c.cy),
   (c.cx + c.cw, c.cy + c.ch), (c.cx, c.cy + c.ch)]

/-- Capture request with callback id a, used as concrete input. -/
def capA : CaptureParams := ⟨0, 0, -1, -1, "a", "a.png"⟩

/-- Capture request with callback id b, used as concrete input. -/
def capB : CaptureParams := ⟨0, 0, -1, -1, "b", "b.png"⟩

/-- Capture request with callback id c, used as concrete input. -/
def capC : CaptureParams := ⟨0, 0, -1, -1, "c", "c.png"⟩

/-- Capture request with an empty callback id, used as concrete input. -/
def capNoID : CaptureParams := ⟨0, 0, -1, -1, "", "shot.png"⟩

/-- Capture request with width -2 (negative but not -1) inside a 100 by
100 viewport, used as concrete input. -/
def capNeg2 : CaptureParams := ⟨0, 0, -2, 100, "cb", "out.png"⟩

/-- Fresh canvas: context alive, opaque white world color, identity
transform, nothing registered, nothing queued. -/
def freshCanvas : CanvasState :=
  { contextLost := false, worldColor := whiteColor, transform := identityT,
    transformStack := [], vertexBuffer := [], streams := [], textures := [],
    capParams := ⟨[], 0⟩, callbacks := [], indices := [] }

/-- 16 by 16 texture registered under id 5, used as concrete input. -/
def tex16 : Texture := ⟨5, 7, 16, 16⟩

/-- Canvas with the 16 by 16 texture 5 registered and identity transform
active, the setting of the spec example for the draw opcode. -/
def canvasTex16 : CanvasState :=
  { freshCanvas with textures := [tex16] }

/-- Canvas with three capture requests a, b, c queued in FIFO order. -/
def canvasThreeCaps : CanvasState :=
  { freshCanvas with capParams := ⟨[capA, capB, capC], 3⟩ }

/-- Canvas with one capture request queued whose callback id is empty. -/
def canvasEmptyCapID : CanvasState :=
  { freshCanvas with capParams := ⟨[capNoID], 1⟩ }

/-- Registry holding exactly the texture ids 1, 2 and 3, used as concrete
input for the unknown-texture claim. -/
def regThree : List Texture := [⟨1, 10, 8, 8⟩, ⟨2, 11, 8, 8⟩, ⟨3, 12, 8, 8⟩]

/-- Frame state mid-interpretation with one active stream over texture 1,
used as concrete input for the unknown-texture claim. -/
def fsActive : FrameState :=
  { transform := identityT, transformStack := [], worldColor := whiteColor,
    vertexBuffer := [], streams := [mkStream ⟨1, 10, 8, 8⟩], n := 0 }

/-- Projection lemma: DoPushQuad does not touch the transform machine. -/
theorem pushQuadInto_transform (s : FrameState) (idx : ℕ) (clip : ClipQ) :
    (pushQuadInto s idx clip).transform = s.transform := rfl

/-- Projection lemma: DoPushQuad does not touch the save stack. -/
theorem pushQuadInto_transformStack (s : FrameState) (idx : ℕ)
    (clip : ClipQ) :
    (pushQuadInto s idx clip).transformStack = s.transformStack := rfl

/-- Projection lemma: the draw handler does not touch the transform. -/
theorem stepDraw_transform (textures : List Texture) (s : FrameState)
    (clip : ClipQ) : (stepDraw textures s clip).transform = s.transform := by
  unfold stepDraw
  cases findTexture textures clip.textureID with
  | none => rfl
  | some img =>
    dsimp only
    split
    · rfl
    · rw [pushQuadInto_transform]
      split <;> split <;> rfl

/-- Projection lemma: the draw handler does not touch the save stack. -/
theorem stepDraw_transformStack (textures : List Texture) (s : FrameState)
    (clip : ClipQ) :
    (stepDraw textures s clip).transformStack = s.transformStack := by
  unfold stepDraw
  cases findTexture textures clip.textureID with
  | none => rfl
  | some img =>
    dsimp only
    split
    · rfl
    · rw [pushQuadInto_transformStack]
      split <;> split <;> rfl

/-- One interpreter step moves the transform and save stack exactly as the
pure transform machine does. -/
theorem stepCmd_xform (ops : ExtOps) (textures : List Texture)
    (s : FrameState) (c : Cmd) :
    ((stepCmd ops textures s c).transform,
      (stepCmd ops textures s c).transformStack) =
      xformStep ops (s.transform, s.transformStack) c := by
  cases c with
  | draw tid cx cy cw ch px py pw ph =>
    simp [stepCmd, xformStep, stepDraw_transform, stepDraw_transformStack]
  | restore =>
    simp only [stepCmd, xformStep]
    split <;> rfl
  | _ => rfl

/-- The whole command loop moves the transform and save stack exactly as
the pure transform machine does. -/
theorem foldl_xform (ops : ExtOps) (textures : List Texture) :
    ∀ (cmds : List Cmd) (s : FrameState),
      ((cmds.foldl (stepCmd ops textures) s).transform,
        (cmds.foldl (stepCmd ops textures) s).transformStack) =
        cmds.foldl (xformStep ops) (s.transform, s.transformStack)
  | [], s => rfl
  | c :: cs, s => by
    simp only [List.foldl_cons]
    rw [foldl_xform ops textures cs (stepCmd ops textures s c),
        stepCmd_xform]

/-- Projection lemma: the final flush does not touch the transform. -/
theorem finalFlush_transform (s : FrameState) :
    (finalFlush s).transform = s.transform := by
  unfold finalFlush
  split <;> rfl

/-- Projection lemma: the final flush does not touch the save stack. -/
theorem finalFlush_transformStack (s : FrameState) :
    (finalFlush s).transformStack = s.transformStack := by
  unfold finalFlush
  split <;> rfl

/-- BuildStreams leaves the final transform and save stack equal to the
pure transform machine run from the canvas fields it started with. -/
theorem buildStreams_xform (ops : ExtOps) (s : CanvasState)
    (cmds : List Cmd) :
    ((buildStreams ops s cmds).transform,
      (buildStreams ops s cmds).transformStack) =
      cmds.foldl (xformStep ops) (s.transform, s.transformStack) := by
  show ((finalFlush _).transform, (finalFlush _).transformStack) = _
  rw [finalFlush_transform, finalFlush_transformStack]
  exact foldl_xform ops s.textures cmds _

/-- Projection lemma: BuildStreams does not touch the capture queue. -/
theorem buildStreams_capParams (ops : ExtOps) (s : CanvasState)
    (cmds : List Cmd) : (buildStreams ops s cmds).capParams = s.capParams :=
  rfl

/-- Projection lemma: BuildStreams does not touch the callback queue. -/
theorem buildStreams_callbacks (ops : ExtOps) (s : CanvasState)
    (cmds : List Cmd) : (buildStreams ops s cmds).callbacks = s.callbacks :=
  rfl

/-- C5: the transform opcodes f, k, r and l right-multiply the parsed
matrix onto the current transform by the six-component law of the spec,
and from the identity, translate(10,0) followed by scale(2,2) yields the
transform (2,0,0,2,10,0). -/
theorem c5_compose_law :
    (∀ (ops : ExtOps) (textures : List Texture) (s : FrameState)
        (a b c d tx ty : ℚ),
      (stepCmd ops textures s (.composeT a b c d tx ty)).transform =
        specCompose s.transform
          (parseModeT ops (.composeT a b c d tx ty))) ∧
    (∀ (ops : ExtOps) (textures : List Texture) (s : FrameState)
        (sx sy : ℚ),
      (stepCmd ops textures s (.scale sx sy)).transform =
        specCompose s.transform (parseModeT ops (.scale sx sy))) ∧
    (∀ (ops : ExtOps) (textures : List Texture) (s : FrameState)
        (angle : ℚ),
      (stepCmd ops textures s (.rotate angle)).transform =
        specCompose s.transform (parseModeT ops (.rotate angle))) ∧
    (∀ (ops : ExtOps) (textures : List Texture) (s : FrameState)
        (dx dy : ℚ),
      (stepCmd ops textures s (.translate dx dy)).transform =
        specCompose s.transform (parseModeT ops (.translate dx dy))) ∧
    (([Cmd.translate 10 0, Cmd.scale 2 2].foldl (stepCmd ops0 [])
        { transform := identityT, transformStack := [],
          worldColor := whiteColor, vertexBuffer := [], streams := [],
          n := -1 }).transform = ⟨2, 0, 0, 2, 10, 0⟩) := by
  refine ⟨fun _ _ _ _ _ _ _ _ _ => rfl, fun _ _ _ _ _ => rfl,
    fun _ _ _ _ => rfl, fun _ _ _ _ _ => rfl, ?_⟩
  simp [stepCmd, applySetTransform, parseModeT, concatT, identityT,
    TransformQ.mk.injEq]

/-- C7: the restore opcode e with an empty transform stack leaves the
whole interpreter state unchanged (no error is raised), and the sequence
e; e; e; interpreted from the identity transform leaves the transform
equal to the identity with the stack still empty. -/
theorem c7_restore_empty_stack :
    (∀ (ops : ExtOps) (textures : List Texture) (s : FrameState),
      s.transformStack = [] → stepCmd ops textures s .restore = s) ∧
    (buildStreams ops0 freshCanvas
        [.restore, .restore, .restore]).transform = identityT ∧
    (buildStreams ops0 freshCanvas
        [.restore, .restore, .restore]).transformStack = [] := by
  refine ⟨fun ops textures s h => ?_, rfl, rfl⟩
  simp [stepCmd, h]

/-- C7 witness: applying the no-op part at a concrete state with an empty
stack. -/
theorem c7_restore_empty_stack_witness :
    stepCmd ops0 regThree fsActive .restore = fsActive :=
  c7_restore_empty_stack.1 ops0 regThree fsActive rfl

/-- C6: a draw command whose texture id does not resolve in the registry
leaves the interpreter state completely unchanged (no vertices, same
active stream index, no stream mutation), and concretely drawing with id
99 against a registry holding only ids 1, 2, 3 is a no-op on a state with
one active stream. -/
theorem c6_unknown_texture_dropped :
    (∀ (ops : ExtOps) (textures : List Texture) (s : FrameState)
        (tid : ℤ) (cx cy cw ch px py pw ph : ℚ),
      findTexture textures tid = none →
      stepCmd ops textures s (.draw tid cx cy cw ch px py pw ph) = s) ∧
    stepCmd ops0 regThree fsActive (.draw 99 0 0 8 8 0 0 8 8) = fsActive := by
  constructor
  · intro ops textures s tid cx cy cw ch px py pw ph h
    simp only [stepCmd, stepDraw]
    rw [h]
  · rfl

/-- C6 witness: applying the drop rule at the concrete registry 1, 2, 3
with the unregistered id 99. -/
theorem c6_unknown_texture_dropped_witness :
    stepCmd ops0 regThree fsActive (.draw 99 1 2 3 4 5 6 7 8) = fsActive :=
  c6_unknown_texture_dropped.1 ops0 regThree fsActive 99 1 2 3 4 5 6 7 8 rfl

/-- C4: the quad generator emits positions that are the affine transform
of the four destination corners TL, TR, BR, BL with each coordinate
floored toward negative infinity, texture coordinates that are the clip
corners divided by the texture dimensions in matching order; DoPushQuad
appends exactly these four vertices for the active stream texture; and the
command d5,0,0,16,16,0,0,32,32; with the 16 by 16 texture 5 registered
and the identity transform active yields a quad with destination corners
(0,0) through (32,32) and texture coordinates (0,0) through (1,1). -/
theorem c4_quad_generation :
    (∀ (t : TransformQ) (wc : ColorB) (w h : ℚ) (c : ClipQ),
      (quadVerts t wc w h c).map Vertex2Q.pos =
        (destCorners c).map (fun p => floorPoint (applyTransform t p)) ∧
      (quadVerts t wc w h c).map Vertex2Q.tex =
        (clipCorners c).map (fun p => (p.1 / w, p.2 / h))) ∧
    (∀ (s : FrameState) (idx : ℕ) (c : ClipQ),
      (pushQuadInto s idx c).vertexBuffer =
        s.vertexBuffer ++ quadVerts s.transform s.worldColor
          ((streamTexWidth (s.streams.getD idx defaultStream) : ℤ) : ℚ)
          ((streamTexHeight (s.streams.getD idx defaultStream) : ℤ) : ℚ)
          c) ∧
    (buildStreams ops0 canvasTex16
        [.draw 5 0 0 16 16 0 0 32 32]).vertexBuffer =
      [⟨(0, 0), (0, 0), whiteColor⟩, ⟨(32, 0), (1, 0), whiteColor⟩,
       ⟨(32, 32), (1, 1), whiteColor⟩, ⟨(0, 32), (0, 1), whiteColor⟩] := by
  refine ⟨fun t wc w h c => ⟨rfl, rfl⟩, fun s idx c => rfl, ?_⟩
  simp only [buildStreams, canvasTex16, freshCanvas, tex16, List.foldl,
    stepCmd, stepDraw, findTexture, pushQuadInto, quadVerts, finalFlush,
    mkStream, streamTexWidth, streamTexHeight, defaultStream, ratFloor,
    whiteColor, ColorB.isWhite, identityT]
  norm_num

/-- C2 counterexample: a queued capture with width -2 (negative but not
-1) inside a 100 by 100 viewport keeps width -2 in the readback
rectangle; a negative width does not mean the full viewport. -/
theorem c2_negative_width_counterexample :
    capNeg2.width < 0 ∧ (clampCapture 100 100 capNeg2).w = -2 ∧
      (clampCapture 100 100 capNeg2).w ≠ 100 := by decide

/-- C2 amended: a width or height exactly equal to -1 (not negative in
general) selects the full viewport extent on that axis; a negative x or
y is reset to 0; a requested rectangle whose origin plus extent exceeds
the viewport on an axis is clamped by resetting that axis to origin 0
with the full viewport extent; and a width or height other than -1 is
kept as-is whenever that overflow clamp does not fire (so other negative
extents are not replaced by the viewport). -/
theorem c2_capture_clamping (vpW vpH : ℤ) (p : CaptureParams) :
    ((p.width = -1 → (clampCapture vpW vpH p).w = vpW) ∧
     (p.height = -1 → (clampCapture vpW vpH p).h = vpH)) ∧
    ((p.x < 0 → (clampCapture vpW vpH p).x = 0) ∧
     (p.y < 0 → (clampCapture vpW vpH p).y = 0)) ∧
    ((p.x + p.width > vpW →
      (clampCapture vpW vpH p).x = 0 ∧ (clampCapture vpW vpH p).w = vpW) ∧
     (p.y + p.height > vpH →
      (clampCapture vpW vpH p).y = 0 ∧ (clampCapture vpW vpH p).h = vpH)) ∧
    ((p.width ≠ -1 → max p.x 0 + p.width ≤ vpW →
      (clampCapture vpW vpH p).w = p.width) ∧
     (p.height ≠ -1 → max p.y 0 + p.height ≤ vpH →
      (clampCapture vpW vpH p).h = p.height)) := by
  unfold clampCapture
  refine ⟨⟨fun hw => ?_, fun hh => ?_⟩, ⟨fun hx => ?_, fun hy => ?_⟩,
    ⟨fun hov => ⟨?_, ?_⟩, fun hov => ⟨?_, ?_⟩⟩,
    ⟨fun hne hle => ?_, fun hne hle => ?_⟩⟩ <;>
    dsimp only <;> split_ifs <;> simp_all <;> omega

/-- C2 witness: concrete clamping outcomes obtained from the amended
theorem, one instance per guarded conjunct, inside a 100 by 100
viewport. -/
theorem c2_capture_clamping_witness :
    ((clampCapture 100 100 ⟨5, 5, -1, -1, "", ""⟩).w = 100 ∧
     (clampCapture 100 100 ⟨5, 5, -1, -1, "", ""⟩).h = 100) ∧
    ((clampCapture 100 100 ⟨-3, -4, 10, 10, "", ""⟩).x = 0 ∧
     (clampCapture 100 100 ⟨-3, -4, 10, 10, "", ""⟩).y = 0) ∧
    ((clampCapture 100 100 ⟨60, 0, 50, 10, "", ""⟩).x = 0 ∧
     (clampCapture 100 100 ⟨60, 0, 50, 10, "", ""⟩).w = 100) ∧
    ((clampCapture 100 100 ⟨0, 60, 10, 50, "", ""⟩).y = 0 ∧
     (clampCapture 100 100 ⟨0, 60, 10, 50, "", ""⟩).h = 100) ∧
    ((clampCapture 100 100 ⟨0, 0, -2, 100, "", ""⟩).w = -2 ∧
     (clampCapture 100 100 ⟨0, 0, 100, -5, "", ""⟩).h = -5) :=
  ⟨⟨(c2_capture_clamping 100 100 _).1.1 rfl,
    (c2_capture_clamping 100 100 _).1.2 rfl⟩,
   ⟨(c2_capture_clamping 100 100 _).2.1.1 (by decide),
    (c2_capture_clamping 100 100 _).2.1.2 (by decide)⟩,
   (c2_capture_clamping 100 100 _).2.2.1.1 (by decide),
   (c2_capture_clamping 100 100 _).2.2.1.2 (by decide),
   ⟨(c2_capture_clamping 100 100 _).2.2.2.1 (by decide) (by decide),
    (c2_capture_clamping 100 100 _).2.2.2.2 (by decide) (by decide)⟩⟩

/-- C3 counterexample: the per-quad index pattern written by EnsureIndex
is 0,1,2,0,3,2, not 0,1,2 followed by 0,2,3. -/
theorem c3_index_counterexample :
    buildIndices 6 0 0 = [0, 1, 2, 0, 3, 2] ∧
      buildIndices 6 0 0 ≠ [0, 1, 2] ++ [0, 2, 3] := by decide

/-- Unfolding six steps of the EnsureIndex fill loop: one whole quad group
followed by the loop restarted with the base advanced by 4. -/
theorem buildIndices_six (k base : ℕ) :
    buildIndices (k + 6) 0 base =
      base :: (base + 1) :: (base + 2) :: base :: (base + 3) :: (base + 2) ::
        buildIndices k 0 (base + 4) := by
  simp [buildIndices, indexOffset, Nat.add_comm]

/-- Slice of the EnsureIndex array covering quad q, stated with an
arbitrary running base. -/
theorem buildIndices_slice (q : ℕ) : ∀ (n base : ℕ), 6 * q + 6 ≤ n →
    ((buildIndices n 0 base).drop (6 * q)).take 6 =
      [4 * q + base, 4 * q + 1 + base, 4 * q + 2 + base,
       4 * q + base, 4 * q + 3 + base, 4 * q + 2 + base] := by
  induction q with
  | zero =>
    intro n base h
    obtain ⟨k, rfl⟩ : ∃ k, n = k + 6 := ⟨n - 6, by omega⟩
    simp [buildIndices_six]
    omega
  | succ q ih =>
    intro n base h
    obtain ⟨k, rfl⟩ : ∃ k, n = k + 6 := ⟨n - 6, by omega⟩
    rw [buildIndices_six, show 6 * (q + 1) = 6 * q + 6 by ring]
    simp only [List.drop_succ_cons]
    rw [ih k (base + 4) (by omega)]
    simp only [List.cons.injEq, and_true]
    omega

/-- C3 amended: every quad is drawn as two triangles; relative to the
first vertex of quad q (vertex 4q) the six indices EnsureIndex emits for
it are (0,1,2) and (0,3,2) - the same two triangles the claim names, with
the second triangle listed in the order 0,3,2 rather than 0,2,3. -/
theorem c3_index_pattern (q n : ℕ) (h : 6 * q + 6 ≤ n) :
    ((buildIndices n 0 0).drop (6 * q)).take 6 =
      [4 * q + 0, 4 * q + 1, 4 * q + 2, 4 * q + 0, 4 * q + 3, 4 * q + 2] := by
  have := buildIndices_slice q n 0 h
  simpa using this

/-- C3 witness: the six indices of quad 1 inside an index array of 12. -/
theorem c3_index_pattern_witness :
    ((buildIndices 12 0 0).drop 6).take 6 = [4, 5, 6, 4, 7, 6] := by
  have := c3_index_pattern 1 12 (by decide)
  simpa using this

/-- C8: Render resets the world color to opaque white before interpreting
the command stream, so the outcome of a render call (final state and
processed captures) is independent of whatever world color an earlier
command stream left behind. -/
theorem c8_world_color_reset (ops : ExtOps) (s : CanvasState)
    (cmds : List Cmd) (c1 c2 : ColorB) (h : s.contextLost = false) :
    render ops { s with worldColor := c1 } cmds =
      render ops { s with worldColor := c2 } cmds := by
  cases s
  simp_all [render]

/-- C8 witness: on a fresh canvas the render outcome is the same whether
the previous world color was fully transparent black or opaque red. -/
theorem c8_world_color_reset_witness :
    render ops0 { freshCanvas with worldColor := ⟨0, 0, 0, 0⟩ } [] =
      render ops0 { freshCanvas with worldColor := ⟨255, 0, 0, 255⟩ } [] :=
  c8_world_color_reset ops0 freshCanvas [] ⟨0, 0, 0, 0⟩ ⟨255, 0, 0, 255⟩ rfl

/-- C9: neither Render nor BuildStreams resets the transform or the save
stack between frames: after any render call they equal the pure transform
machine run over the command stream from the transform and stack the
canvas held on entry, so the state left by one frame is the initial state
of the next. -/
theorem c9_transform_persists (ops : ExtOps) (s : CanvasState)
    (cmds : List Cmd) (h : s.contextLost = false) :
    ((render ops s cmds).1.transform,
      (render ops s cmds).1.transformStack) =
      cmds.foldl (xformStep ops) (s.transform, s.transformStack) := by
  cases cmds with
  | nil => simp [render, h]
  | cons c cs =>
    have hb := buildStreams_xform ops { s with worldColor := whiteColor }
      (c :: cs)
    simp only [render, h, Bool.false_eq_true, if_false, List.isEmpty_cons,
      if_neg] at *
    exact hb

/-- C9 witness: a save and a translate performed inside one render call
are still in force at the end of it. -/
theorem c9_transform_persists_witness :
    ((render ops0 freshCanvas [.save, .translate 10 0]).1.transform,
      (render ops0 freshCanvas [.save, .translate 10 0]).1.transformStack) =
      [Cmd.save, Cmd.translate 10 0].foldl (xformStep ops0)
        (freshCanvas.transform, freshCanvas.transformStack) :=
  c9_transform_persists ops0 freshCanvas [.save, .translate 10 0] rfl

/-- Projection lemma: the capture trace, callback queue and capture queue
of a render call are exactly those produced by the drain loop on the
queues the canvas held on entry (interpretation touches neither). -/
theorem render_queues (ops : ExtOps) (s : CanvasState) (cmds : List Cmd)
    (h : s.contextLost = false) :
    (render ops s cmds).2 = (captureDrain ops s.capParams s.callbacks).1 ∧
    (render ops s cmds).1.callbacks =
      (captureDrain ops s.capParams s.callbacks).2.1 ∧
    (render ops s cmds).1.capParams =
      (captureDrain ops s.capParams s.callbacks).2.2 := by
  cases cmds with
  | nil => simp only [render, h, Bool.false_eq_true, if_false]; exact ⟨rfl, rfl, rfl⟩
  | cons c cs =>
    simp only [render, h, Bool.false_eq_true, if_false]
    exact ⟨rfl, rfl, rfl⟩

/-- C10: AddCallback drops a NULL callback id, and a render cycle over a
queue holding one capture request with an empty callback id still
performs the capture (the request appears in the processed trace) while
appending no Callback, so the host is never notified. -/
theorem c10_empty_callback_id :
    (∀ (cbs : List Callback) (res : String) (isErr : Bool),
      addCallback cbs none res isErr = cbs) ∧
    (∀ (ops : ExtOps) (s : CanvasState) (p : CaptureParams)
        (cmds : List Cmd),
      s.contextLost = false → s.capParams = ⟨[p], 1⟩ → p.callbackID = "" →
      (render ops s cmds).2 = [p] ∧
        (render ops s cmds).1.callbacks = s.callbacks) := by
  refine ⟨fun cbs res isErr => rfl, fun ops s p cmds h hq hcb => ?_⟩
  obtain ⟨h1, h2, h3⟩ := render_queues ops s cmds h
  rw [h1, h2, hq]
  simp [captureDrain, captureLoopFuel, addCallback, hcb, captureOutcome,
    dynRemoveAt]

/-- C10 witness: one queued capture with an empty callback id on an
otherwise fresh canvas is processed but produces no callback. -/
theorem c10_empty_callback_id_witness :
    (render ops0 canvasEmptyCapID []).2 = [capNoID] ∧
      (render ops0 canvasEmptyCapID []).1.callbacks = [] :=
  c10_empty_callback_id.2 ops0 canvasEmptyCapID capNoID [] rfl rfl rfl

/-- C1: with the three capture requests a, b, c queued (and no encode
failures), the render drain loop processes a, then c, then the stale
duplicate of c that RemoveAt left beyond the logical size: request b is
never captured, c is captured twice, three callbacks a, c, c are
appended, and the queue ends empty.  This contradicts the FIFO drain the
spec describes and violates the in-bounds assertions of DynArray
(Canvas.h, ASSERT(index < m_size)), because the loop in Canvas::Render
removes at a running index i that it also increments. -/
theorem c1_drain_skips_and_repeats :
    (render ops0 canvasThreeCaps []).2 = [capA, capC, capC] ∧
    (render ops0 canvasThreeCaps []).2 ≠ [capA, capB, capC] ∧
    (render ops0 canvasThreeCaps []).1.callbacks.map Callback.callbackID =
      ["a", "c", "c"] ∧
    (render ops0 canvasThreeCaps []).1.capParams.size = 0 := by decide
